import Mathlib

/-!
Verification development for the `cherry_picker` backport tool
(`cherry_picker/cherry_picker.py`).

Strings are modelled as `List Char` at the parsing level (Python `str`
iteration); the orchestrator level uses `String` for branch names.  All
external effects (git subprocesses, the GitHub HTTP API, the browser) are
modelled by an explicit environment of outcome functions, and the
repository-local git config used as durable state is modelled by an
explicit `GitCfg` record that every operation threads through.
-/

deriving instance DecidableEq for Except

namespace CherryPickerModel

/-! ### Character-level scanning primitives

`spanDigits` models the behaviour of a greedy `\d+` at the head of the
input: the maximal run of ASCII digits and the remainder. -/

def spanDigits : List Char → List Char × List Char
  | [] => ([], [])
  | c :: r =>
    if c.isDigit then
      let p := spanDigits r
      (c :: p.1, p.2)
    else ([], c :: r)

theorem spanDigits_append (x t : List Char) (hx : ∀ c ∈ x, c.isDigit = true)
    (ht : ∀ c ∈ t.head?, c.isDigit = false) : spanDigits (x ++ t) = (x, t) := by
  induction x with
  | nil =>
    cases t with
    | nil => rfl
    | cons c r =>
      have hc : c.isDigit = false := ht c rfl
      simp [spanDigits, hc]
  | cons c x ih =>
    have hc : c.isDigit = true := hx c (List.mem_cons_self c x)
    have ih' := ih (fun d hd => hx d (List.mem_cons_of_mem c hd))
    simp [spanDigits, hc, ih']

theorem spanDigits_suffix_length (l : List Char) : (spanDigits l).2.length ≤ l.length := by
  induction l with
  | nil => simp [spanDigits]
  | cons c r ih =>
    by_cases hc : c.isDigit
    · simp [spanDigits, hc]
      exact Nat.le_succ_of_le ih
    · simp [spanDigits, hc]

/-- Models the greedy `(?:\.\d+)+`/`(?:\.\d+)*` tail of the version regexes:
starting from the input, repeatedly consume a literal `'.'` followed by a
nonempty maximal digit run, returning the list of digit runs consumed and
the remainder.  The fuel argument only serves termination; callers pass the
input length, which always suffices since every step consumes at least two
characters. -/
def dotComponents : Nat → List Char → List (List Char) × List Char
  | 0, l => ([], l)
  | Nat.succ f, l =>
    match l with
    | [] => ([], [])
    | c :: rest =>
      if c = '.' then
        match spanDigits rest with
        | ([], _) => ([], c :: rest)
        | (d :: ds, r2) => ((d :: ds) :: (dotComponents f r2).1, (dotComponents f r2).2)
      else ([], c :: rest)

theorem dotComponents_suffix_length (f : Nat) (l : List Char) :
    (dotComponents f l).2.length ≤ l.length := by
  induction f generalizing l with
  | zero => simp [dotComponents]
  | succ f ih =>
    match l with
    | [] => simp [dotComponents]
    | c :: rest =>
      by_cases hc : c = '.'
      · cases h : spanDigits rest with
        | mk run r2 =>
          cases run with
          | nil => simp [dotComponents, hc, h]
          | cons d ds =>
            have hr2 : r2.length ≤ rest.length := by
              have := spanDigits_suffix_length rest
              rw [h] at this
              exact this
            simp only [dotComponents, hc, if_true, h, List.length_cons]
            calc (dotComponents f r2).2.length ≤ r2.length := ih r2
              _ ≤ rest.length := hr2
              _ ≤ rest.length + 1 := Nat.le_succ _
      · simp [dotComponents, hc]

/-! ### re.search(r"\d+(?:\.\d+)+", branch)

`matchVersionAt` is the regex matched at one position (a maximal digit run
followed by at least one `.digits` group; backtracking never helps because
`\.` can never match a digit).  `searchVersion` scans positions left to
right like `re.search`; positions strictly inside a digit run can never
start a match that the run start missed, so advancing one character at a
time is faithful. -/

def matchVersionAt (l : List Char) : Option (List (List Char)) :=
  match spanDigits l with
  | ([], _) => none
  | (d :: ds, rest) =>
    match dotComponents rest.length rest with
    | ([], _) => none
    | (g :: gs, _) => some ((d :: ds) :: g :: gs)

def searchVersion : List Char → Option (List (List Char))
  | [] => none
  | c :: rest =>
    match matchVersionAt (c :: rest) with
    | some v => some v
    | none => searchVersion rest

def digitVal (c : Char) : Nat := c.toNat - '0'.toNat

def digitsToNat (ds : List Char) : Nat := ds.foldl (fun a c => 10 * a + digitVal c) 0

/-- The numeric components of the first dotted version substring of a
branch name, if any: `int(x) for x in m[0].split(".")`. -/
def extractedVersion (b : List Char) : Option (List Nat) :=
  (searchVersion b).map (fun comps => comps.map digitsToNat)

/-! ### Sort keys (`compute_version_sort_key`)

Python returns either the tuple `(0, -v1, -v2, ...)` or `(1, branch)`;
tuples are compared lexicographically, a strict prefix comparing smaller.
Mixed comparisons of the tails never happen because the leading `0`/`1`
discriminates, which is what the two constructors model. -/

inductive SortKey where
  | vkey : List Int → SortKey
  | nkey : List Char → SortKey
deriving DecidableEq, Repr

def intLexLt : List Int → List Int → Bool
  | [], [] => false
  | [], _ :: _ => true
  | _ :: _, [] => false
  | a :: as, b :: bs => if a < b then true else if b < a then false else intLexLt as bs

def natLexLt : List Nat → List Nat → Bool
  | [], [] => false
  | [], _ :: _ => true
  | _ :: _, [] => false
  | a :: as, b :: bs => if a < b then true else if b < a then false else natLexLt as bs

def charLexLt : List Char → List Char → Bool
  | [], [] => false
  | [], _ :: _ => true
  | _ :: _, [] => false
  | a :: as, b :: bs => if a < b then true else if b < a then false else charLexLt as bs

def sortKeyLt : SortKey → SortKey → Bool
  | .vkey a, .vkey b => intLexLt a b
  | .vkey _, .nkey _ => true
  | .nkey _, .vkey _ => false
  | .nkey a, .nkey b => charLexLt a b

/-- `compute_version_sort_key(config, branch)`.  The only configuration key
the source consults is `require_version_in_branch_name`, passed here as
`req`.  A raised `ValueError` is modelled as `Except.error` carrying the
message. -/
def compute_version_sort_key (req : Bool) (branch : List Char) : Except String SortKey :=
  match searchVersion branch with
  | some comps => .ok (.vkey (comps.map (fun ds => -(digitsToNat ds : Int))))
  | none =>
    if branch = [] then .error "Branch name is an empty string."
    else if req then .error "Branch seems to not have a version in its name."
    else .ok (.nkey branch)

example : compute_version_sort_key true "3.10".data = .ok (.vkey [-3, -10]) := by decide
example : compute_version_sort_key true "v3.6-rc1".data = .ok (.vkey [-3, -6]) := by decide
example : sortKeyLt (.vkey [-3, -10]) (.vkey [-3, -6]) = true := by decide
example : compute_version_sort_key false "buster".data = .ok (.nkey "buster".data) := by decide
example : extractedVersion "3.1.2".data = some [3, 1, 2] := by decide

/-- The negated numeric components `(-int(x) for x in raw_version)` making
up the tail of the tuple `(0, -v1, -v2, ...)`. -/
def negComponents : List Nat → List Int
  | [] => []
  | n :: ns => -(n : Int) :: negComponents ns

theorem negComponents_nil : negComponents [] = [] := rfl

theorem negComponents_cons (a : Nat) (as : List Nat) :
    negComponents (a :: as) = -(a : Int) :: negComponents as := rfl

theorem map_neg_digits (comps : List (List Char)) :
    comps.map (fun ds => -(digitsToNat ds : Int)) = negComponents (comps.map digitsToNat) := by
  induction comps with
  | nil => rfl
  | cons c cs ih => simp [negComponents, ih]

theorem compute_key_of_extracted (req : Bool) (b : List Char) (v : List Nat)
    (h : extractedVersion b = some v) :
    compute_version_sort_key req b = .ok (.vkey (negComponents v)) := by
  unfold extractedVersion at h
  cases hs : searchVersion b with
  | none => rw [hs] at h; simp at h
  | some comps =>
    rw [hs, Option.map_some'] at h
    cases h
    simp [compute_version_sort_key, hs, map_neg_digits]

theorem compute_key_of_no_version (req : Bool) (b : List Char) (k : SortKey)
    (h : extractedVersion b = none) (e : compute_version_sort_key req b = .ok k) :
    k = .nkey b := by
  unfold extractedVersion at h
  cases hs : searchVersion b with
  | some comps => rw [hs] at h; simp at h
  | none =>
    unfold compute_version_sort_key at e
    rw [hs] at e
    by_cases hb : b = []
    · simp [hb] at e
    · cases hreq : req with
      | true => simp [hb, hreq] at e
      | false =>
        simp only [hb, hreq, if_false, Bool.false_eq_true, ite_false,
          Except.ok.injEq] at e
        exact e.symm

theorem natLexLt_to_neg (v2 v1 : List Nat) (h : natLexLt v2 v1 = true)
    (hnp : List.isPrefixOf v2 v1 = false) :
    intLexLt (negComponents v1) (negComponents v2) = true := by
  induction v2 generalizing v1 with
  | nil => simp [List.isPrefixOf] at hnp
  | cons a as ih =>
    cases v1 with
    | nil => simp [natLexLt] at h
    | cons b bs =>
      rw [negComponents_cons, negComponents_cons]
      by_cases hab : a < b
      · have : -(b : Int) < -(a : Int) := by
          have : (a : Int) < (b : Int) := by exact_mod_cast hab
          omega
        simp [intLexLt, this]
      · by_cases hba : b < a
        · simp [natLexLt, hab, hba] at h
        · have hEq : a = b := Nat.le_antisymm (Nat.not_lt.mp hba) (Nat.not_lt.mp hab)
          subst hEq
          have h' : natLexLt as bs = true := by
            simpa [natLexLt] using h
          have hnp' : List.isPrefixOf as bs = false := by
            simpa [List.isPrefixOf] using hnp
          have hrec := ih bs h' hnp'
          simp [intLexLt, hrec]

/-- C1 (amended).  For branch names each containing a dotted numeric version
substring, the key produced by `compute_version_sort_key` orders them
descending by component-wise integer comparison of the extracted version
tuples whenever neither tuple is a prefix of the other (so `3.10` sorts
before `3.6` before `3.1`); and whenever the key function accepts both
names, a name containing such a substring sorts before a name without one.
(The original claim, unrestricted over pairs, fails when one extracted
tuple is a proper prefix of the other: see the counterexample.) -/
theorem C1_version_sort_descending :
    (∀ (req : Bool) (b1 b2 : List Char) (v1 v2 : List Nat) (k1 k2 : SortKey),
      extractedVersion b1 = some v1 → extractedVersion b2 = some v2 →
      compute_version_sort_key req b1 = .ok k1 →
      compute_version_sort_key req b2 = .ok k2 →
      natLexLt v2 v1 = true → List.isPrefixOf v2 v1 = false →
      sortKeyLt k1 k2 = true)
    ∧ (∀ (req : Bool) (b1 b2 : List Char) (v1 : List Nat) (k1 k2 : SortKey),
      extractedVersion b1 = some v1 → extractedVersion b2 = none →
      compute_version_sort_key req b1 = .ok k1 →
      compute_version_sort_key req b2 = .ok k2 →
      sortKeyLt k1 k2 = true) := by
  constructor
  · intro req b1 b2 v1 v2 k1 k2 h1 h2 e1 e2 hlt hnp
    have e1' := compute_key_of_extracted req b1 v1 h1
    have e2' := compute_key_of_extracted req b2 v2 h2
    rw [e1] at e1'
    rw [e2] at e2'
    have hk1 : k1 = .vkey (negComponents v1) := Except.ok.inj e1'
    have hk2 : k2 = .vkey (negComponents v2) := Except.ok.inj e2'
    subst hk1
    subst hk2
    simpa [sortKeyLt] using natLexLt_to_neg v2 v1 hlt hnp
  · intro req b1 b2 v1 k1 k2 h1 h2 e1 e2
    have e1' := compute_key_of_extracted req b1 v1 h1
    rw [e1] at e1'
    have hk1 : k1 = .vkey (negComponents v1) := Except.ok.inj e1'
    have hk2 : k2 = .nkey b2 := compute_key_of_no_version req b2 k2 h2 e2
    subst hk1
    subst hk2
    simp [sortKeyLt]

/-- C1 counterexample.  `"3.1.2"` extracts the strictly larger version
tuple `[3, 1, 2]` (since `[3, 1] < [3, 1, 2]` in tuple order), so the claim
as stated demands that `"3.1.2"` sort before `"3.1"`; but the computed keys
order `"3.1"` first: descending order fails when one extracted tuple is a
proper prefix of the other. -/
theorem C1_counterexample :
    extractedVersion "3.1.2".data = some [3, 1, 2] ∧
    extractedVersion "3.1".data = some [3, 1] ∧
    natLexLt [3, 1] [3, 1, 2] = true ∧
    compute_version_sort_key true "3.1.2".data = .ok (.vkey [-3, -1, -2]) ∧
    compute_version_sort_key true "3.1".data = .ok (.vkey [-3, -1]) ∧
    sortKeyLt (.vkey [-3, -1, -2]) (.vkey [-3, -1]) = false ∧
    sortKeyLt (.vkey [-3, -1]) (.vkey [-3, -1, -2]) = true := by
  decide

/-- Witness for `C1_version_sort_descending` at concrete branch names. -/
theorem C1_witness :
    sortKeyLt (SortKey.vkey [-3, -10]) (SortKey.vkey [-3, -6]) = true ∧
    sortKeyLt (SortKey.vkey [-3, -6]) (SortKey.nkey "buster".data) = true :=
  ⟨C1_version_sort_descending.1 true "3.10".data "3.6".data [3, 10] [3, 6]
      (SortKey.vkey [-3, -10]) (SortKey.vkey [-3, -6])
      (by decide) (by decide) (by decide) (by decide) (by decide) (by decide),
   C1_version_sort_descending.2 false "3.6".data "buster".data [3, 6]
      (SortKey.vkey [-3, -6]) (SortKey.nkey "buster".data)
      (by decide) (by decide) (by decide) (by decide)⟩

/-! ### Branch naming and parsing (`get_cherry_pick_branch`, `get_base_branch`) -/

def isHexLower (c : Char) : Bool := c.isDigit || ('a' ≤ c && c ≤ 'f')

/-- One split step of `str.split("-", maxsplit)`: the segment before the
first `'-'` and, when a dash was found, the remainder after it. -/
def breakDash : List Char → List Char × Option (List Char)
  | [] => ([], none)
  | c :: r =>
    if c = '-' then ([], some r)
    else
      let p := breakDash r
      (c :: p.1, p.2)

/-- `cherry_pick_branch.split("-", 2)` when it yields three parts.  `none`
models the `ValueError` raised by unpacking fewer than three values into
`prefix, sha, base_branch`. -/
def split2 (l : List Char) : Option (List Char × List Char × List Char) :=
  match breakDash l with
  | (_, none) => none
  | (p1, some r1) =>
    match breakDash r1 with
    | (_, none) => none
    | (p2, some r2) => some (p1, p2, r2)

/-- `re.match("[0-9a-f]{7,40}", sha)` succeeds exactly when the string has
at least seven leading lowercase-hex characters (the match is unanchored at
the end, and `{7,40}` is greedy). -/
def hexMatch (sha : List Char) : Bool :=
  decide (7 ≤ sha.length) && (sha.take 7).all isHexLower

/-- `get_cherry_pick_branch`: `f"backport-{self.commit_sha1[:7]}-{maint_branch}"`
(Python `[:7]` is the first seven characters). -/
def get_cherry_pick_branch (commit_sha1 maint_branch : List Char) : List Char :=
  "backport-".data ++ commit_sha1.take 7 ++ '-' :: maint_branch

/-- `get_base_branch(cherry_pick_branch, config=config)`.  The external
`validate_sha` call (git log) is abstracted by the `shaOk` oracle; raised
`ValueError`s are modelled as `Except.error`. -/
def get_base_branch (shaOk : List Char → Bool) (req : Bool) (branch : List Char) :
    Except String (List Char) :=
  match split2 branch with
  | none => .error "not enough values to unpack"
  | some (p1, sha, base) =>
    if p1 ≠ "backport".data then
      .error "branch name is not prefixed with backport-. Is this a cherry_picker branch?"
    else if !hexMatch sha then .error "branch name has an invalid sha"
    else if !shaOk sha then .error "sha is not present in the repository"
    else
      match compute_version_sort_key req base with
      | .error m => .error m
      | .ok _ => .ok base

theorem breakDash_append (a r : List Char) (h : '-' ∉ a) :
    breakDash (a ++ '-' :: r) = (a, some r) := by
  induction a with
  | nil => simp [breakDash]
  | cons c cs ih =>
    have hc : ¬(c = '-') := by
      intro e
      exact h (e ▸ List.mem_cons_self c cs)
    have ih' := ih (fun m => h (List.mem_cons_of_mem c m))
    simp [breakDash, hc, ih']

/-- C2 (confirmed).  For every commit SHA with at least seven leading
lowercase-hex characters that resolves in the repository, and every target
branch `<base>` passing the branch-name policy check — even when `<base>`
contains dashes — parsing `backport-<7charsha>-<base>` recovers exactly
`<base>`: `get_base_branch (get_cherry_pick_branch ...) = ok base`. -/
theorem C2_branch_name_round_trip (shaOk : List Char → Bool) (req : Bool)
    (commit_sha1 base : List Char) (k : SortKey)
    (hlen : 7 ≤ commit_sha1.length)
    (hhex : (commit_sha1.take 7).all isHexLower = true)
    (hok : shaOk (commit_sha1.take 7) = true)
    (hpol : compute_version_sort_key req base = .ok k) :
    get_base_branch shaOk req (get_cherry_pick_branch commit_sha1 base) = .ok base := by
  have hnd : '-' ∉ commit_sha1.take 7 := by
    intro hm
    have := (List.all_eq_true.mp hhex) _ hm
    exact absurd this (by decide)
  have h1 : breakDash ("backport".data ++ '-' :: (commit_sha1.take 7 ++ '-' :: base))
      = ("backport".data, some (commit_sha1.take 7 ++ '-' :: base)) :=
    breakDash_append _ _ (by decide)
  have h2 : breakDash (commit_sha1.take 7 ++ '-' :: base)
      = (commit_sha1.take 7, some base) :=
    breakDash_append _ _ hnd
  have hname : get_cherry_pick_branch commit_sha1 base
      = "backport".data ++ '-' :: (commit_sha1.take 7 ++ '-' :: base) := by
    have : "backport-".data = "backport".data ++ ['-'] := by decide
    simp [get_cherry_pick_branch, this]
  have hlt : (commit_sha1.take 7).length = 7 := by
    rw [List.length_take]
    omega
  have hhm : hexMatch (commit_sha1.take 7) = true := by
    have htt : List.take 7 (List.take 7 commit_sha1) = List.take 7 commit_sha1 := by
      simp [List.take_take]
    simp only [hexMatch, hlt, htt, Bool.and_eq_true, decide_eq_true_eq]
    exact ⟨by omega, hhex⟩
  rw [hname]
  simp only [get_base_branch, split2, h1, h2]
  simp [hhm, hok, hpol]

/-- Witness for `C2_branch_name_round_trip`: a dashed base branch name
round-trips through the generated cherry-pick branch name. -/
theorem C2_witness :
    get_base_branch (fun _ => true) true
        (get_cherry_pick_branch "acf91e1e9fdcaa9e54de20e2e02e5a17697d1e26".data
          "3.6-special-fixes".data)
      = .ok "3.6-special-fixes".data :=
  C2_branch_name_round_trip (fun _ => true) true
    "acf91e1e9fdcaa9e54de20e2e02e5a17697d1e26".data "3.6-special-fixes".data
    (SortKey.vkey [-3, -6]) (by decide) (by decide) (by decide) (by decide)

/-! ### Issue-reference normalization (`get_commit_message`)

`re.sub(r"\B#(?=[1-9][0-9]{4,}\b)", "GH-", message)`: each match consumes
exactly the `#` (the lookahead consumes nothing), so scanning the original
string position by position, remembering the previous original character to
evaluate `\B`, is faithful. -/

/-- Python `\w` restricted to ASCII (all inputs of interest here). -/
def wordChar (c : Char) : Bool := c.isAlphanum || c = '_'

/-- `\B` just before the `#`: the previous character (or the start of the
string) is not a word character — `#` itself is not a word character, so
`\B` holds exactly when no word boundary precedes it. -/
def prevNonWord : Option Char → Bool
  | none => true
  | some c => !wordChar c

/-- The lookahead `(?=[1-9][0-9]{4,}\b)` evaluated just after the `#`: the
first character is a nonzero digit, at least four more digits follow, and
the maximal digit run is followed by a non-word character or the end of the
string (a backtracked, shorter run always ends inside the run, where `\b`
cannot hold, so only the maximal run matters). -/
def lookaheadOk : List Char → Bool
  | [] => false
  | d :: ds =>
    ('1' ≤ d && d ≤ '9') && (4 ≤ (spanDigits ds).1.length) &&
      (match (spanDigits ds).2 with
       | [] => true
       | c :: _ => !wordChar c)

/-- The sub-scan of `re.sub`, carrying the previous original character. -/
def fixRefs (prev : Option Char) : List Char → List Char
  | [] => []
  | c :: rest =>
    if c = '#' then
      if prevNonWord prev && lookaheadOk rest then
        'G' :: 'H' :: '-' :: fixRefs (some '#') rest
      else c :: fixRefs (some c) rest
    else c :: fixRefs (some c) rest

/-- `get_commit_message`, with the `git show` output supplied as `message`
(obtaining it is an external subprocess).  With `fix_commit_msg` enabled
the issue-reference normalization is applied, otherwise the message is
returned unchanged. -/
def get_commit_message (fix_commit_msg : Bool) (message : List Char) : List Char :=
  if fix_commit_msg then fixRefs none message else message

/-- Whether the position after a context `u` (with outer previous character
`prev`) is word-bounded on the left: the character immediately before the
position — the last of `u`, or `prev` when `u` is empty — is not a word
character. -/
def boundedAt (prev : Option Char) : List Char → Bool
  | [] => prevNonWord prev
  | c :: rest => boundedAt (some c) rest

/-- The claim's conditions on the text following the `#`: the maximal digit
run has five or more digits, starts with a nonzero digit, and is
word-bounded on the right (followed by a non-word character or the end). -/
def issueRefOk (v : List Char) : Bool :=
  (5 ≤ (spanDigits v).1.length) && ((spanDigits v).1.head? != some '0') &&
    (match (spanDigits v).2 with
     | [] => true
     | c :: _ => !wordChar c)

theorem nonzero_digit_iff (d : Char) (h : d.isDigit = true) :
    ('1' ≤ d && d ≤ '9') = (d != '0') := by
  simp only [Char.isDigit, Bool.and_eq_true, decide_eq_true_eq] at h
  have h48 : (48 : Nat) ≤ d.val.toNat := h.1
  have h57 : d.val.toNat ≤ 57 := h.2
  have e1 : ('1' : Char).val.toNat = 49 := rfl
  have e9 : ('9' : Char).val.toNat = 57 := rfl
  by_cases h0 : d = '0'
  · subst h0
    decide
  · have hne : d.val.toNat ≠ 48 := by
      intro e
      exact h0 (Char.ext (UInt32.ext e))
    have h1d : '1' ≤ d := by
      show ('1' : Char).val ≤ d.val
      show ('1' : Char).val.toNat ≤ d.val.toNat
      omega
    have h9d : d ≤ '9' := by
      show d.val ≤ ('9' : Char).val
      show d.val.toNat ≤ ('9' : Char).val.toNat
      omega
    simp [h1d, h9d, h0]

theorem nonzero_digit_of_not_digit (d : Char) (h : d.isDigit = false) :
    ('1' ≤ d && d ≤ '9') = false := by
  have e1 : ('1' : Char).val.toNat = 49 := rfl
  have e9 : ('9' : Char).val.toNat = 57 := rfl
  by_cases h1 : '1' ≤ d
  · by_cases h9 : d ≤ '9'
    · exfalso
      have hv1 : (49 : Nat) ≤ d.val.toNat := by
        have : ('1' : Char).val.toNat ≤ d.val.toNat := h1
        omega
      have hv9 : d.val.toNat ≤ 57 := by
        have : d.val.toNat ≤ ('9' : Char).val.toNat := h9
        omega
      have : d.isDigit = true := by
        simp only [Char.isDigit, Bool.and_eq_true, decide_eq_true_eq]
        constructor
        · show (48 : Nat) ≤ d.val.toNat
          omega
        · show d.val.toNat ≤ 57
          omega
      rw [this] at h
      exact Bool.noConfusion h
    · simp [h9]
  · simp [h1]

/-- The implementation's lookahead condition coincides with the claim's
reading of it: at least five digits, no leading zero, word-bounded on the
right. -/
theorem lookaheadOk_eq_issueRefOk (v : List Char) : lookaheadOk v = issueRefOk v := by
  cases v with
  | nil => rfl
  | cons d ds =>
    by_cases hd : d.isDigit
    · have hspan : spanDigits (d :: ds) = (d :: (spanDigits ds).1, (spanDigits ds).2) := by
        simp [spanDigits, hd]
      rw [lookaheadOk, issueRefOk, hspan, nonzero_digit_iff d hd]
      simp only [List.length_cons, List.head?_cons]
      have h45 : (decide (4 ≤ (spanDigits ds).1.length) : Bool)
          = decide (5 ≤ (spanDigits ds).1.length + 1) := by
        by_cases h4 : 4 ≤ (spanDigits ds).1.length
        · have h5 : 5 ≤ (spanDigits ds).1.length + 1 := by omega
          simp [h4, h5]
        · have h5 : ¬ 5 ≤ (spanDigits ds).1.length + 1 := by omega
          simp [h4, h5]
      have hbne : ((d : Char) != '0') = (some d != some '0') := by
        by_cases h0 : d = '0'
        · subst h0
          rfl
        · have h1 : (d != '0') = true := bne_iff_ne.mpr h0
          have h2 : ((some d : Option Char) != some '0') = true := by
            refine bne_iff_ne.mpr ?_
            simpa using h0
          rw [h1, h2]
      rw [h45, hbne]
      cases hb1 : (some d != some '0') <;>
        cases hb2 : (decide (5 ≤ (spanDigits ds).1.length + 1) : Bool) <;> simp
    · have hd' : d.isDigit = false := by simpa using hd
      have hspan : spanDigits (d :: ds) = ([], d :: ds) := by
        simp [spanDigits, hd']
      rw [lookaheadOk, issueRefOk, hspan, nonzero_digit_of_not_digit d hd']
      simp

theorem fixRefs_append (u : List Char) (prev : Option Char) (v : List Char)
    (hu : '#' ∉ u) :
    fixRefs prev (u ++ '#' :: v) =
      u ++ (if boundedAt prev u && lookaheadOk v
            then 'G' :: 'H' :: '-' :: fixRefs (some '#') v
            else '#' :: fixRefs (some '#') v) := by
  induction u generalizing prev with
  | nil =>
    show fixRefs prev ('#' :: v) = _
    rw [fixRefs]
    simp [boundedAt]
  | cons c u' ih =>
    have hc : ¬(c = '#') := by
      intro e
      exact hu (e ▸ List.mem_cons_self c u')
    have ih' := ih (some c) (fun m => hu (List.mem_cons_of_mem c m))
    show fixRefs prev (c :: (u' ++ '#' :: v)) = _
    rw [fixRefs]
    simp only [hc, if_false, ih', boundedAt, List.cons_append]

/-- C3 (confirmed).  With `fix_commit_msg` enabled, a `#` occurrence is
replaced by `GH-` exactly when the position before it is word-bounded
(start of string or a non-word character) and the following maximal digit
run has five or more digits, no leading zero, and a word boundary after it;
in particular `#12345` becomes `GH-12345`, while `#1234`, `#012345` and
`word#12345` are left unchanged. -/
theorem C3_issue_reference_normalization :
    (∀ (u v : List Char), '#' ∉ u →
      get_commit_message true (u ++ '#' :: v) =
        u ++ (if boundedAt none u && issueRefOk v
              then 'G' :: 'H' :: '-' :: fixRefs (some '#') v
              else '#' :: fixRefs (some '#') v))
    ∧ get_commit_message true "#12345".data = "GH-12345".data
    ∧ get_commit_message true "#1234".data = "#1234".data
    ∧ get_commit_message true "#012345".data = "#012345".data
    ∧ get_commit_message true "word#12345".data = "word#12345".data := by
  refine ⟨?_, by decide, by decide, by decide, by decide⟩
  intro u v hu
  rw [get_commit_message, if_pos rfl, fixRefs_append u none v hu,
    lookaheadOk_eq_issueRefOk]

/-- Witness for `C3_issue_reference_normalization` at a concrete split. -/
theorem C3_witness :
    get_commit_message true ("See ".data ++ '#' :: "12345 now".data) =
      "See ".data ++ (if boundedAt none "See ".data && issueRefOk "12345 now".data
                      then 'G' :: 'H' :: '-' :: fixRefs (some '#') "12345 now".data
                      else '#' :: fixRefs (some '#') "12345 now".data) :=
  C3_issue_reference_normalization.1 "See ".data "12345 now".data (by decide)

/-! ### Workflow states (`WORKFLOW_STATES`) and the durable git config -/

inductive WorkflowState where
  | FETCHING_UPSTREAM
  | FETCHED_UPSTREAM
  | CHECKING_OUT_DEFAULT_BRANCH
  | CHECKED_OUT_DEFAULT_BRANCH
  | CHECKING_OUT_PREVIOUS_BRANCH
  | CHECKED_OUT_PREVIOUS_BRANCH
  | PUSHING_TO_REMOTE
  | PUSHED_TO_REMOTE
  | PUSHING_TO_REMOTE_FAILED
  | PR_CREATING
  | PR_CREATING_FAILED
  | PR_OPENING
  | REMOVING_BACKPORT_BRANCH
  | REMOVING_BACKPORT_BRANCH_FAILED
  | REMOVED_BACKPORT_BRANCH
  | BACKPORT_STARTING
  | BACKPORT_LOOPING
  | BACKPORT_LOOP_START
  | BACKPORT_LOOP_END
  | ABORTING
  | ABORTED
  | ABORTING_FAILED
  | CONTINUATION_STARTED
  | BACKPORTING_CONTINUATION_SUCCEED
  | CONTINUATION_FAILED
  | BACKPORT_PAUSED
  | UNSET
deriving DecidableEq, Repr

def tokenName : WorkflowState → String
  | .FETCHING_UPSTREAM => "FETCHING_UPSTREAM"
  | .FETCHED_UPSTREAM => "FETCHED_UPSTREAM"
  | .CHECKING_OUT_DEFAULT_BRANCH => "CHECKING_OUT_DEFAULT_BRANCH"
  | .CHECKED_OUT_DEFAULT_BRANCH => "CHECKED_OUT_DEFAULT_BRANCH"
  | .CHECKING_OUT_PREVIOUS_BRANCH => "CHECKING_OUT_PREVIOUS_BRANCH"
  | .CHECKED_OUT_PREVIOUS_BRANCH => "CHECKED_OUT_PREVIOUS_BRANCH"
  | .PUSHING_TO_REMOTE => "PUSHING_TO_REMOTE"
  | .PUSHED_TO_REMOTE => "PUSHED_TO_REMOTE"
  | .PUSHING_TO_REMOTE_FAILED => "PUSHING_TO_REMOTE_FAILED"
  | .PR_CREATING => "PR_CREATING"
  | .PR_CREATING_FAILED => "PR_CREATING_FAILED"
  | .PR_OPENING => "PR_OPENING"
  | .REMOVING_BACKPORT_BRANCH => "REMOVING_BACKPORT_BRANCH"
  | .REMOVING_BACKPORT_BRANCH_FAILED => "REMOVING_BACKPORT_BRANCH_FAILED"
  | .REMOVED_BACKPORT_BRANCH => "REMOVED_BACKPORT_BRANCH"
  | .BACKPORT_STARTING => "BACKPORT_STARTING"
  | .BACKPORT_LOOPING => "BACKPORT_LOOPING"
  | .BACKPORT_LOOP_START => "BACKPORT_LOOP_START"
  | .BACKPORT_LOOP_END => "BACKPORT_LOOP_END"
  | .ABORTING => "ABORTING"
  | .ABORTED => "ABORTED"
  | .ABORTING_FAILED => "ABORTING_FAILED"
  | .CONTINUATION_STARTED => "CONTINUATION_STARTED"
  | .BACKPORTING_CONTINUATION_SUCCEED => "BACKPORTING_CONTINUATION_SUCCEED"
  | .CONTINUATION_FAILED => "CONTINUATION_FAILED"
  | .BACKPORT_PAUSED => "BACKPORT_PAUSED"
  | .UNSET => "UNSET"

def allStates : List WorkflowState :=
  [.FETCHING_UPSTREAM, .FETCHED_UPSTREAM,
   .CHECKING_OUT_DEFAULT_BRANCH, .CHECKED_OUT_DEFAULT_BRANCH,
   .CHECKING_OUT_PREVIOUS_BRANCH, .CHECKED_OUT_PREVIOUS_BRANCH,
   .PUSHING_TO_REMOTE, .PUSHED_TO_REMOTE, .PUSHING_TO_REMOTE_FAILED,
   .PR_CREATING, .PR_CREATING_FAILED, .PR_OPENING,
   .REMOVING_BACKPORT_BRANCH, .REMOVING_BACKPORT_BRANCH_FAILED,
   .REMOVED_BACKPORT_BRANCH,
   .BACKPORT_STARTING, .BACKPORT_LOOPING, .BACKPORT_LOOP_START,
   .BACKPORT_LOOP_END,
   .ABORTING, .ABORTED, .ABORTING_FAILED,
   .CONTINUATION_STARTED, .BACKPORTING_CONTINUATION_SUCCEED,
   .CONTINUATION_FAILED,
   .BACKPORT_PAUSED, .UNSET]

/-- `WORKFLOW_STATES.__members__[state_str]` as a total lookup: `none`
models the `KeyError` raised on an unrecognized token. -/
def stateOfToken (t : String) : Option WorkflowState :=
  allStates.find? (fun s => tokenName s == t)

/-- `load_val_from_git_cfg("state") or "UNSET"`: Python's `or` replaces both
`None` (key absent) and the falsy empty string by `"UNSET"`. -/
def orUnset : Option String → String
  | none => "UNSET"
  | some s => if s = "" then "UNSET" else s

/-- `get_state()`: `none` models the `KeyError` escaping
`get_state_from_string` on an unrecognized stored token. -/
def get_state (stored : Option String) : Option WorkflowState :=
  stateOfToken (orUnset stored)

/-- `CherryPicker.ALLOWED_STATES = (BACKPORT_PAUSED, UNSET)`. -/
def isAllowedState : WorkflowState → Bool
  | .BACKPORT_PAUSED => true
  | .UNSET => true
  | _ => false

/-- `get_state_and_verify`.  On a recognized but disallowed state the raised
`ValueError` message carries `state.name`; on a `KeyError` the handler
builds a stand-in object whose `name` is the raw looked-up token, and the
same `ValueError` carries it.  The `Except.error` value models the token
embedded in that message. -/
def get_state_and_verify (stored : Option String) : Except String WorkflowState :=
  match get_state stored with
  | some st => if isAllowedState st then .ok st else .error (tokenName st)
  | none => .error (orUnset stored)

theorem stateOfToken_roundtrip (t : String) (st : WorkflowState)
    (h : stateOfToken t = some st) : tokenName st = t := by
  have := List.find?_some h
  simpa using this

/-! ### The orchestrator: durable config, environment, events -/

/-- The repository-local `cherry-picker.*` git config section: the single
state slot plus the two breadcrumbs. -/
structure GitCfg where
  state : Option String
  previous_branch : Option String
  config_path : Option String
deriving DecidableEq, Repr

/-- The fields of `CherryPicker` the orchestrator claims depend on.
`dry_run` is fixed to `False` (the dry-run mode merely echoes commands);
`config` is represented by the keys the orchestrator reads. -/
structure Picker where
  commit_sha1 : String
  branches : List String
  push : Bool
  auto_pr : Bool
  chosen_config_path : Option String
  default_branch : String
  check_sha : String
  require_version_in_branch_name : Bool

/-- Outcomes of the external git/GitHub/browser operations, per argument
where the argument matters.  Each reported failure of a subprocess models
`subprocess.CalledProcessError` from the corresponding command. -/
structure Env where
  currentBranch : String
  fetchOk : Bool
  checkoutOk : String → Bool
  createCheckoutOk : String → Bool
  cherryPickOk : String → Bool
  commitMsgOk : Bool
  trailersOk : Bool
  pushOk : String → Bool
  ghAuth : Bool
  publishOk : String → Bool
  isMirror : Bool
  deleteOk : String → Bool
  shaInRepo : String → Bool
  commitsCount : String → Nat
  fullShaOk : Bool
  commitCmdOk : Bool
  cherryPickHeadExists : Bool
  abortCmdOk : Bool

/-- Observable events of a run, including every durable state write. -/
inductive Ev where
  | stateSet (token : String)
  | fetched
  | checkedOut (branch : String)
  | createdBranch (branch : String)
  | cherryPicked (branch : String)
  | amended (branch : String)
  | committed (branch : String)
  | pushed (branch : String)
  | pushFailed (branch : String)
  | prCreated (branch : String)
  | prFailed (branch : String)
  | openedPR (branch : String)
  | deletedBranch (branch : String)
  | abortedPick
deriving DecidableEq, Repr

/-- Exceptions of the orchestrator. -/
inductive Err where
  | usageError (msg : String)
  | branchCheckout (branch : String)
  | cherryPickExc
  | gitHub
  | valueError (msg : String)
  | calledProcessError
  | invalidRepo (msg : String)
deriving DecidableEq, Repr

/-- Durable config plus the event trace of the run so far. -/
abbrev St := GitCfg × List Ev

def addEv (e : Ev) (st : St) : St := (st.1, st.2 ++ [e])

/-- `set_state(state)`: write the token into git config (traced). -/
def set_state (s : WorkflowState) (st : St) : St :=
  ({st.1 with state := some (tokenName s)}, st.2 ++ [Ev.stateSet (tokenName s)])

/-- `reset_stored_previous_branch()`: `git config --unset-all` raises
`CalledProcessError` when the key is absent, and the caller does not catch
it. -/
def wipe_previous_branch (st : St) : Except Err St :=
  match st.1.previous_branch with
  | none => .error .calledProcessError
  | some _ => .ok ({st.1 with previous_branch := none}, st.2)

/-- `reset_state()`: same unset-all behaviour for the state slot. -/
def wipe_state (st : St) : Except Err St :=
  match st.1.state with
  | none => .error .calledProcessError
  | some _ => .ok ({st.1 with state := none}, st.2)

/-- `reset_stored_config_ref()`: the missing-key error is caught. -/
def reset_stored_config_ref (st : St) : St :=
  ({st.1 with config_path := none}, st.2)

/-- `set_paused_state()`: store the chosen config path breadcrumb when one
was chosen, then persist `BACKPORT_PAUSED`. -/
def set_paused_state (p : Picker) (st : St) : St :=
  let st :=
    match p.chosen_config_path with
    | some cp => ({st.1 with config_path := some cp}, st.2)
    | none => st
  set_state .BACKPORT_PAUSED st

/-- `checkout_default_branch()`. -/
def checkout_default_branch (p : Picker) (env : Env) (st : St) :
    Except Err Unit × St :=
  let st := set_state .CHECKING_OUT_DEFAULT_BRANCH st
  if env.checkoutOk p.default_branch then
    (.ok (), set_state .CHECKED_OUT_DEFAULT_BRANCH
      (addEv (.checkedOut p.default_branch) st))
  else (.error (.branchCheckout p.default_branch), st)

/-- `checkout_previous_branch()`: falls back to the default branch when no
`previous_branch` breadcrumb is stored (and then does not set the
`CHECKED_OUT_PREVIOUS_BRANCH` state). -/
def checkout_previous_branch (p : Picker) (env : Env) (st : St) :
    Except Err Unit × St :=
  let st := set_state .CHECKING_OUT_PREVIOUS_BRANCH st
  match st.1.previous_branch with
  | none => checkout_default_branch p env st
  | some prev =>
    if env.checkoutOk prev then
      (.ok (), set_state .CHECKED_OUT_PREVIOUS_BRANCH (addEv (.checkedOut prev) st))
    else (.error (.branchCheckout prev), st)

/-- `cleanup_branch(branch)`: checkout the previous branch (a checkout
failure is caught and only reported), then force-delete the backport branch
(a delete failure is caught and only reported).  Never raises. -/
def cleanup_branch (p : Picker) (env : Env) (branch : String) (st : St) : St :=
  let st := set_state .REMOVING_BACKPORT_BRANCH st
  match checkout_previous_branch p env st with
  | (.error _, st) => set_state .REMOVING_BACKPORT_BRANCH_FAILED st
  | (.ok _, st) =>
    if env.deleteOk branch then
      set_state .REMOVED_BACKPORT_BRANCH (addEv (.deletedBranch branch) st)
    else set_state .REMOVING_BACKPORT_BRANCH_FAILED st

/-- `push_to_remote(base_branch, head_branch, commit_message)`.  A `git
push` failure is caught: the state becomes `PUSHING_TO_REMOTE_FAILED` and
the method returns normally.  On success, with auto-PR enabled, either the
API PR creation runs (its terminal failure after the bounded retries sets
`PR_CREATING_FAILED` and re-raises `GitHubException`) or the compare URL is
opened in a browser. -/
def push_to_remote (p : Picker) (env : Env) (head : String) (st : St) :
    Except Err Unit × St :=
  let st := set_state .PUSHING_TO_REMOTE st
  if env.pushOk head then
    let st := set_state .PUSHED_TO_REMOTE (addEv (.pushed head) st)
    if !p.auto_pr then (.ok (), st)
    else if env.ghAuth then
      let st := set_state .PR_CREATING st
      if env.publishOk head then (.ok (), addEv (.prCreated head) st)
      else (.error .gitHub, set_state .PR_CREATING_FAILED (addEv (.prFailed head) st))
    else (.ok (), addEv (.openedPR head) (set_state .PR_OPENING st))
  else (.ok (), set_state .PUSHING_TO_REMOTE_FAILED (addEv (.pushFailed head) st))

/-- String-level wrapper for the branch naming. -/
def get_cherry_pick_branchS (p : Picker) (maint : String) : String :=
  String.mk (get_cherry_pick_branch p.commit_sha1.data maint.data)

/-- String-level wrapper for `get_base_branch`, as `continue_cherry_pick`
uses it on the current branch name. -/
def get_base_branchS (shaOk : String → Bool) (req : Bool) (branch : String) :
    Except String String :=
  match get_base_branch (fun l => shaOk (String.mk l)) req branch.data with
  | .error m => .error m
  | .ok base => .ok (String.mk base)

/-- The per-element key computations performed by
`sorted(self.branches, key=...)`; the first raising key aborts the sort. -/
def branchKeys (req : Bool) : List String → Except String (List (String × SortKey))
  | [] => .ok []
  | b :: bs =>
    match compute_version_sort_key req b.data with
    | .error m => .error m
    | .ok k =>
      match branchKeys req bs with
      | .error m => .error m
      | .ok rest => .ok ((b, k) :: rest)

/-- Stable insertion by strict key comparison (equal keys keep their
original relative order, matching Python's stable sort). -/
def insertPair (x : String × SortKey) : List (String × SortKey) → List (String × SortKey)
  | [] => [x]
  | y :: ys => if sortKeyLt y.2 x.2 then y :: insertPair x ys else x :: y :: ys

def sortPairs : List (String × SortKey) → List (String × SortKey)
  | [] => []
  | x :: xs => insertPair x (sortPairs xs)

/-- `CherryPicker.sorted_branches`; `Except.error` models the `ValueError`
raised by the key function inside `sorted`. -/
def sorted_branches (p : Picker) : Except String (List String) :=
  match branchKeys p.require_version_in_branch_name p.branches with
  | .error m => .error m
  | .ok pairs => .ok ((sortPairs pairs).map Prod.fst)

/-- The per-branch body of `backport`'s loop over `sorted_branches`.
Returns `ok true` when every branch was processed, `ok false` for the
early `return` of the deliberate no-push pause. -/
def backport_loop (p : Picker) (env : Env) : List String → St → Except Err Bool × St
  | [], st => (.ok true, st)
  | maint :: rest, st =>
    let st := set_state .BACKPORT_LOOP_START st
    let head := get_cherry_pick_branchS p maint
    if env.createCheckoutOk maint then
      let st := addEv (.createdBranch head) st
      if env.cherryPickOk maint then
        let st := addEv (.cherryPicked maint) st
        if env.commitMsgOk then
          if env.trailersOk then
            let st := addEv (.amended head) st
            if p.push then
              match push_to_remote p env head st with
              | (.error .gitHub, st) => (.error .gitHub, set_paused_state p st)
              | (.error e, st) => (.error e, st)
              | (.ok _, st) =>
                let st := if !env.isMirror then cleanup_branch p env head st else st
                let st := set_state .BACKPORT_LOOP_END st
                backport_loop p env rest st
            else (.ok false, set_paused_state p st)
          else
            let st := set_state .BACKPORT_LOOP_END st
            backport_loop p env rest st
        else (.error .cherryPickExc, set_paused_state p st)
      else (.error .cherryPickExc, set_paused_state p st)
    else
      match checkout_default_branch p env st with
      | (.ok _, st) =>
        match wipe_state (reset_stored_config_ref st) with
        | .error e => (.error e, reset_stored_config_ref st)
        | .ok st2 => (.error (.branchCheckout head), st2)
      | (.error e, st) => (.error e, st)

/-- `backport()`.  The empty-branches check precedes every state write;
fetch and the previous-branch breadcrumb precede the loop; the final resets
run only when the loop finished every branch. -/
def backport (p : Picker) (env : Env) (cfg : GitCfg) : Except Err Unit × St :=
  if p.branches = [] then
    (.error (.usageError "At least one branch must be specified."), (cfg, []))
  else
    let st : St := (cfg, [])
    let st := set_state .BACKPORT_STARTING st
    let st := set_state .FETCHING_UPSTREAM st
    if !env.fetchOk then (.error .calledProcessError, st)
    else
      let st := set_state .FETCHED_UPSTREAM (addEv .fetched st)
      let st := ({st.1 with previous_branch := some env.currentBranch}, st.2)
      let st := set_state .BACKPORT_LOOPING st
      match sorted_branches p with
      | .error m => (.error (.valueError m), st)
      | .ok bs =>
        match backport_loop p env bs st with
        | (.ok true, st) =>
          match wipe_previous_branch st with
          | .error e => (.error e, st)
          | .ok st =>
            match wipe_state st with
            | .error e => (.error e, st)
            | .ok st => (.ok (), st)
        | (.ok false, st) => (.ok (), st)
        | (.error e, st) => (.error e, st)

/-- The shared tail of `continue_cherry_pick` and `abort_cherry_pick`:
`reset_stored_previous_branch(); reset_stored_config_ref(); reset_state()`.
Only the config-path reset swallows the missing-key error. -/
def finishResets (st : St) : Except Err Unit × St :=
  match wipe_previous_branch st with
  | .error e => (.error e, st)
  | .ok st =>
    let st := reset_stored_config_ref st
    match wipe_state st with
    | .error e => (.error e, st)
    | .ok st => (.ok (), st)

/-- `continue_cherry_pick()`. -/
def continue_cherry_pick (p : Picker) (env : Env) (cfg : GitCfg) :
    Except Err Unit × St :=
  match get_state_and_verify cfg.state with
  | .error t => (.error (.valueError t), (cfg, []))
  | .ok s =>
    if s ≠ WorkflowState.BACKPORT_PAUSED then
      (.error (.valueError "One can only continue a paused process."), (cfg, []))
    else
      let cpb := env.currentBranch
      if "backport-".data.isPrefixOf cpb.data then
        let st := set_state .CONTINUATION_STARTED (cfg, [])
        match get_base_branchS env.shaInRepo p.require_version_in_branch_name cpb with
        | .error m => (.error (.valueError m), st)
        | .ok base =>
          if !env.fullShaOk then (.error .calledProcessError, st)
          else if !env.commitMsgOk then (.error .cherryPickExc, st)
          else if !env.trailersOk then (.error .calledProcessError, st)
          else if env.commitsCount base ≠ 1 && !env.commitCmdOk then
            (.error .calledProcessError, st)
          else
            let st :=
              if env.commitsCount base = 1 then addEv (.amended cpb) st
              else addEv (.committed cpb) st
            if p.push then
              match push_to_remote p env cpb st with
              | (.error e, st) => (.error e, st)
              | (.ok _, st) =>
                let st := if !env.isMirror then cleanup_branch p env cpb st else st
                let st := set_state .BACKPORTING_CONTINUATION_SUCCEED st
                finishResets st
            else (.ok (), set_paused_state p st)
      else
        let st := set_state .CONTINUATION_FAILED (cfg, [])
        finishResets st

/-- `abort_cherry_pick()`. -/
def abort_cherry_pick (p : Picker) (env : Env) (cfg : GitCfg) :
    Except Err Unit × St :=
  match get_state_and_verify cfg.state with
  | .error t => (.error (.valueError t), (cfg, []))
  | .ok s =>
    if s ≠ WorkflowState.BACKPORT_PAUSED then
      (.error (.valueError "One can only abort a paused process."), (cfg, []))
    else
      let st : St := (cfg, [])
      let st :=
        if env.cherryPickHeadExists then
          let st := set_state .ABORTING st
          if env.abortCmdOk then set_state .ABORTED (addEv .abortedPick st)
          else set_state .ABORTING_FAILED st
        else st
      let st :=
        if "backport-".data.isPrefixOf env.currentBranch.data then
          cleanup_branch p env env.currentBranch st
        else st
      finishResets st

/-- `check_repo()`, run by the `CherryPicker` constructor before any
command: `validate_sha(check_sha)` then `get_state_and_verify`, both
`ValueError`s converted to `InvalidRepoException`. -/
def check_repo (p : Picker) (env : Env) (cfg : GitCfg) : Except Err Unit :=
  if !env.shaInRepo p.check_sha then
    .error (.invalidRepo "check_sha is not present in the repository")
  else
    match get_state_and_verify cfg.state with
    | .error t => .error (.invalidRepo t)
    | .ok _ => .ok ()

/-! ### Helper lemmas for symbolic runs -/

theorem set_paused_state_state (p : Picker) (st : St) :
    (set_paused_state p st).1.state = some "BACKPORT_PAUSED" := by
  unfold set_paused_state set_state
  cases p.chosen_config_path <;> rfl

theorem set_paused_state_trace (p : Picker) (st : St) :
    (set_paused_state p st).2 = st.2 ++ [Ev.stateSet "BACKPORT_PAUSED"] := by
  unfold set_paused_state set_state
  cases p.chosen_config_path <;> rfl

/-- The durable config and trace just before the backport loop starts
(branches nonempty, fetch succeeded, previous branch remembered). -/
def preLoopSt (env : Env) (cfg : GitCfg) : St :=
  ({cfg with state := some "BACKPORT_LOOPING",
             previous_branch := some env.currentBranch},
   [Ev.stateSet "BACKPORT_STARTING", Ev.stateSet "FETCHING_UPSTREAM", Ev.fetched,
    Ev.stateSet "FETCHED_UPSTREAM", Ev.stateSet "BACKPORT_LOOPING"])

/-- The tail of `backport` after the loop returns. -/
def postLoop (r : Except Err Bool × St) : Except Err Unit × St :=
  match r with
  | (.ok true, st) =>
    (match wipe_previous_branch st with
     | .error e => (.error e, st)
     | .ok st =>
       match wipe_state st with
       | .error e => (.error e, st)
       | .ok st => (.ok (), st))
  | (.ok false, st) => (.ok (), st)
  | (.error e, st) => (.error e, st)

theorem backport_run (p : Picker) (env : Env) (cfg : GitCfg) (bs : List String)
    (hb : p.branches ≠ []) (hf : env.fetchOk = true)
    (hs : sorted_branches p = .ok bs) :
    backport p env cfg = postLoop (backport_loop p env bs (preLoopSt env cfg)) := by
  unfold backport
  rw [if_neg hb]
  rw [hf]
  simp only [Bool.not_true, Bool.false_eq_true, if_false]
  rw [hs]
  rfl

/-- C8 (confirmed).  With an empty target-branch list, `backport` raises
the usage error before any state write: the returned config is the input
config and the trace is empty. -/
theorem C8_empty_branches_usage_error (p : Picker) (env : Env) (cfg : GitCfg)
    (h : p.branches = []) :
    backport p env cfg =
      (.error (.usageError "At least one branch must be specified."), (cfg, [])) := by
  unfold backport
  rw [if_pos h]

/-- An all-succeeding environment for concrete runs. -/
def envOk : Env where
  currentBranch := "main"
  fetchOk := true
  checkoutOk := fun _ => true
  createCheckoutOk := fun _ => true
  cherryPickOk := fun _ => true
  commitMsgOk := true
  trailersOk := true
  pushOk := fun _ => true
  ghAuth := true
  publishOk := fun _ => true
  isMirror := false
  deleteOk := fun _ => true
  shaInRepo := fun _ => true
  commitsCount := fun _ => 1
  fullShaOk := true
  commitCmdOk := true
  cherryPickHeadExists := false
  abortCmdOk := true

/-- A concrete picker targeting one versioned branch. -/
def pickerW : Picker where
  commit_sha1 := "acf91e1e9fdcaa9e54de20e2e02e5a17697d1e26"
  branches := ["3.6"]
  push := true
  auto_pr := true
  chosen_config_path := none
  default_branch := "main"
  check_sha := "7f777ed95a19224294949e1b4ce56bbffcb1fe9f"
  require_version_in_branch_name := true

def cfgUnset : GitCfg := { state := none, previous_branch := none, config_path := none }

def pickerEmpty : Picker := { pickerW with branches := [] }

/-- Witness for `C8_empty_branches_usage_error`. -/
theorem C8_witness :
    backport pickerEmpty envOk cfgUnset =
      (.error (.usageError "At least one branch must be specified."), (cfgUnset, [])) :=
  C8_empty_branches_usage_error pickerEmpty envOk cfgUnset rfl

theorem backport_loop_conflict (p : Picker) (env : Env) (b : String)
    (rest : List String) (st : St)
    (hco : env.createCheckoutOk b = true) (hcp : env.cherryPickOk b = false) :
    backport_loop p env (b :: rest) st =
      (.error .cherryPickExc,
       set_paused_state p
         (addEv (.createdBranch (get_cherry_pick_branchS p b))
           (set_state .BACKPORT_LOOP_START st))) := by
  unfold backport_loop
  rw [hco, hcp]
  simp

/-- C5 (confirmed).  A content conflict during the cherry-pick replay onto
the created cherry-pick branch transitions the persisted state to
`BACKPORT_PAUSED` and re-raises `CherryPickException`; the trace shows no
further branch is processed and the state is not cleared. -/
theorem C5_conflict_pauses_and_reraises (p : Picker) (env : Env) (cfg : GitCfg)
    (b : String) (rest : List String)
    (hb : p.branches ≠ [])
    (hs : sorted_branches p = .ok (b :: rest))
    (hf : env.fetchOk = true)
    (hco : env.createCheckoutOk b = true)
    (hcp : env.cherryPickOk b = false) :
    (backport p env cfg).1 = .error .cherryPickExc ∧
    (backport p env cfg).2.1.state = some "BACKPORT_PAUSED" ∧
    (backport p env cfg).2.2 =
      [Ev.stateSet "BACKPORT_STARTING", Ev.stateSet "FETCHING_UPSTREAM",
       Ev.fetched, Ev.stateSet "FETCHED_UPSTREAM", Ev.stateSet "BACKPORT_LOOPING",
       Ev.stateSet "BACKPORT_LOOP_START",
       Ev.createdBranch (get_cherry_pick_branchS p b),
       Ev.stateSet "BACKPORT_PAUSED"] := by
  have hrun := backport_run p env cfg (b :: rest) hb hf hs
  rw [backport_loop_conflict p env b rest (preLoopSt env cfg) hco hcp] at hrun
  refine ⟨?_, ?_, ?_⟩
  · rw [hrun]
    rfl
  · rw [hrun]
    exact set_paused_state_state p _
  · rw [hrun]
    show (set_paused_state p _).2 = _
    rw [set_paused_state_trace]
    rfl

def envC5 : Env := { envOk with cherryPickOk := fun _ => false }

/-- Witness for `C5_conflict_pauses_and_reraises`. -/
theorem C5_witness :
    (backport pickerW envC5 cfgUnset).1 = .error .cherryPickExc ∧
    (backport pickerW envC5 cfgUnset).2.1.state = some "BACKPORT_PAUSED" ∧
    (backport pickerW envC5 cfgUnset).2.2 =
      [Ev.stateSet "BACKPORT_STARTING", Ev.stateSet "FETCHING_UPSTREAM",
       Ev.fetched, Ev.stateSet "FETCHED_UPSTREAM", Ev.stateSet "BACKPORT_LOOPING",
       Ev.stateSet "BACKPORT_LOOP_START",
       Ev.createdBranch (get_cherry_pick_branchS pickerW "3.6"),
       Ev.stateSet "BACKPORT_PAUSED"] :=
  C5_conflict_pauses_and_reraises pickerW envC5 cfgUnset "3.6" []
    (by decide) (by decide) rfl rfl rfl

theorem backport_loop_publish_fail (p : Picker) (env : Env) (b : String)
    (rest : List String) (st : St)
    (hco : env.createCheckoutOk b = true) (hcp : env.cherryPickOk b = true)
    (hcm : env.commitMsgOk = true) (htr : env.trailersOk = true)
    (hpush : p.push = true) (hauto : p.auto_pr = true)
    (hpo : env.pushOk (get_cherry_pick_branchS p b) = true)
    (hgh : env.ghAuth = true)
    (hpub : env.publishOk (get_cherry_pick_branchS p b) = false) :
    backport_loop p env (b :: rest) st =
      (.error .gitHub,
       set_paused_state p
         (set_state .PR_CREATING_FAILED
           (addEv (.prFailed (get_cherry_pick_branchS p b))
             (set_state .PR_CREATING
               (set_state .PUSHED_TO_REMOTE
                 (addEv (.pushed (get_cherry_pick_branchS p b))
                   (set_state .PUSHING_TO_REMOTE
                     (addEv (.amended (get_cherry_pick_branchS p b))
                       (addEv (.cherryPicked b)
                         (addEv (.createdBranch (get_cherry_pick_branchS p b))
                           (set_state .BACKPORT_LOOP_START st))))))))))) := by
  unfold backport_loop push_to_remote
  simp [hco, hcp, hcm, htr, hpush, hauto, hgh, hpo, hpub]

/-- C7 (confirmed).  When the push succeeds but the subsequent PR-creation
call fails (after the bounded retries), the workflow persists
`BACKPORT_PAUSED` and re-raises the publish error to the caller. -/
theorem C7_publish_failure_pauses (p : Picker) (env : Env) (cfg : GitCfg)
    (b : String) (rest : List String)
    (hb : p.branches ≠ [])
    (hs : sorted_branches p = .ok (b :: rest))
    (hf : env.fetchOk = true)
    (hco : env.createCheckoutOk b = true)
    (hcp : env.cherryPickOk b = true)
    (hcm : env.commitMsgOk = true)
    (htr : env.trailersOk = true)
    (hpush : p.push = true)
    (hauto : p.auto_pr = true)
    (hpo : env.pushOk (get_cherry_pick_branchS p b) = true)
    (hgh : env.ghAuth = true)
    (hpub : env.publishOk (get_cherry_pick_branchS p b) = false) :
    (backport p env cfg).1 = .error .gitHub ∧
    (backport p env cfg).2.1.state = some "BACKPORT_PAUSED" ∧
    (backport p env cfg).2.2 =
      [Ev.stateSet "BACKPORT_STARTING", Ev.stateSet "FETCHING_UPSTREAM",
       Ev.fetched, Ev.stateSet "FETCHED_UPSTREAM", Ev.stateSet "BACKPORT_LOOPING",
       Ev.stateSet "BACKPORT_LOOP_START",
       Ev.createdBranch (get_cherry_pick_branchS p b),
       Ev.cherryPicked b, Ev.amended (get_cherry_pick_branchS p b),
       Ev.stateSet "PUSHING_TO_REMOTE", Ev.pushed (get_cherry_pick_branchS p b),
       Ev.stateSet "PUSHED_TO_REMOTE", Ev.stateSet "PR_CREATING",
       Ev.prFailed (get_cherry_pick_branchS p b),
       Ev.stateSet "PR_CREATING_FAILED", Ev.stateSet "BACKPORT_PAUSED"] := by
  have hrun := backport_run p env cfg (b :: rest) hb hf hs
  rw [backport_loop_publish_fail p env b rest (preLoopSt env cfg)
    hco hcp hcm htr hpush hauto hpo hgh hpub] at hrun
  refine ⟨?_, ?_, ?_⟩
  · rw [hrun]
    rfl
  · rw [hrun]
    exact set_paused_state_state p _
  · rw [hrun]
    show (set_paused_state p _).2 = _
    rw [set_paused_state_trace]
    rfl

def envC7 : Env := { envOk with publishOk := fun _ => false }

/-- Witness for `C7_publish_failure_pauses`. -/
theorem C7_witness :
    (backport pickerW envC7 cfgUnset).1 = .error .gitHub ∧
    (backport pickerW envC7 cfgUnset).2.1.state = some "BACKPORT_PAUSED" ∧
    (backport pickerW envC7 cfgUnset).2.2 =
      [Ev.stateSet "BACKPORT_STARTING", Ev.stateSet "FETCHING_UPSTREAM",
       Ev.fetched, Ev.stateSet "FETCHED_UPSTREAM", Ev.stateSet "BACKPORT_LOOPING",
       Ev.stateSet "BACKPORT_LOOP_START",
       Ev.createdBranch (get_cherry_pick_branchS pickerW "3.6"),
       Ev.cherryPicked "3.6", Ev.amended (get_cherry_pick_branchS pickerW "3.6"),
       Ev.stateSet "PUSHING_TO_REMOTE", Ev.pushed (get_cherry_pick_branchS pickerW "3.6"),
       Ev.stateSet "PUSHED_TO_REMOTE", Ev.stateSet "PR_CREATING",
       Ev.prFailed (get_cherry_pick_branchS pickerW "3.6"),
       Ev.stateSet "PR_CREATING_FAILED", Ev.stateSet "BACKPORT_PAUSED"] :=
  C7_publish_failure_pauses pickerW envC7 cfgUnset "3.6" []
    (by decide) (by decide) rfl rfl rfl rfl rfl rfl rfl rfl rfl rfl

/-- The events of one loop iteration whose push fails (previous branch
`pb`, cleanup succeeding). -/
def pushFailSeg (p : Picker) (b pb : String) : List Ev :=
  [Ev.stateSet "BACKPORT_LOOP_START",
   Ev.createdBranch (get_cherry_pick_branchS p b),
   Ev.cherryPicked b, Ev.amended (get_cherry_pick_branchS p b),
   Ev.stateSet "PUSHING_TO_REMOTE",
   Ev.pushFailed (get_cherry_pick_branchS p b),
   Ev.stateSet "PUSHING_TO_REMOTE_FAILED",
   Ev.stateSet "REMOVING_BACKPORT_BRANCH",
   Ev.stateSet "CHECKING_OUT_PREVIOUS_BRANCH",
   Ev.checkedOut pb, Ev.stateSet "CHECKED_OUT_PREVIOUS_BRANCH",
   Ev.deletedBranch (get_cherry_pick_branchS p b),
   Ev.stateSet "REMOVED_BACKPORT_BRANCH",
   Ev.stateSet "BACKPORT_LOOP_END"]

/-- C6 (amended).  When pushing the cherry-pick branch fails, the failure
is reported (`PUSHING_TO_REMOTE_FAILED`) and the workflow never enters
`BACKPORT_PAUSED` during that branch's processing, proceeding to the next
branch; but `backport` still runs the cleanup step, so — the repository not
being a mirror, and checkout of the previous branch and deletion
succeeding — the local cherry-pick branch is deleted rather than kept. -/
theorem C6_push_failure_no_pause_but_deletes (p : Picker) (env : Env)
    (b : String) (rest : List String) (cfg : GitCfg) (evs : List Ev) (pb : String)
    (hco : env.createCheckoutOk b = true) (hcp : env.cherryPickOk b = true)
    (hcm : env.commitMsgOk = true) (htr : env.trailersOk = true)
    (hpush : p.push = true)
    (hpo : env.pushOk (get_cherry_pick_branchS p b) = false)
    (hmir : env.isMirror = false)
    (hprev : cfg.previous_branch = some pb)
    (hcko : env.checkoutOk pb = true)
    (hdel : env.deleteOk (get_cherry_pick_branchS p b) = true) :
    backport_loop p env (b :: rest) (cfg, evs) =
      backport_loop p env rest
        ({cfg with state := some "BACKPORT_LOOP_END"}, evs ++ pushFailSeg p b pb) ∧
    Ev.pushFailed (get_cherry_pick_branchS p b) ∈ pushFailSeg p b pb ∧
    Ev.deletedBranch (get_cherry_pick_branchS p b) ∈ pushFailSeg p b pb ∧
    Ev.stateSet "BACKPORT_PAUSED" ∉ pushFailSeg p b pb := by
  refine ⟨?_, ?_, ?_, ?_⟩
  · conv_lhs => simp only [backport_loop]
    simp [hco, hcp, hcm, htr, hpush, hpo, hmir, hprev, hcko, hdel,
      push_to_remote, cleanup_branch, checkout_previous_branch,
      set_state, addEv, tokenName, pushFailSeg]
  · simp [pushFailSeg]
  · simp [pushFailSeg]
  · simp [pushFailSeg]

def envC6 : Env := { envOk with pushOk := fun _ => false }

/-- C6 counterexample.  On a concrete run whose push is rejected, the run
reports the push failure and never enters `BACKPORT_PAUSED` — but the trace
contains the deletion of the local cherry-pick branch, contradicting the
claim that the branch and its commit remain for manual retry. -/
theorem C6_counterexample :
    (backport pickerW envC6 cfgUnset).1 = .ok () ∧
    Ev.pushFailed (get_cherry_pick_branchS pickerW "3.6")
      ∈ (backport pickerW envC6 cfgUnset).2.2 ∧
    Ev.stateSet "BACKPORT_PAUSED" ∉ (backport pickerW envC6 cfgUnset).2.2 ∧
    Ev.deletedBranch (get_cherry_pick_branchS pickerW "3.6")
      ∈ (backport pickerW envC6 cfgUnset).2.2 := by
  decide

def cfgPrevMain : GitCfg :=
  { state := none, previous_branch := some "main", config_path := none }

/-- Witness for `C6_push_failure_no_pause_but_deletes`. -/
theorem C6_witness :
    backport_loop pickerW envC6 ["3.6"] (cfgPrevMain, []) =
      backport_loop pickerW envC6 []
        ({cfgPrevMain with state := some "BACKPORT_LOOP_END"},
          [] ++ pushFailSeg pickerW "3.6" "main") ∧
    Ev.pushFailed (get_cherry_pick_branchS pickerW "3.6")
      ∈ pushFailSeg pickerW "3.6" "main" ∧
    Ev.deletedBranch (get_cherry_pick_branchS pickerW "3.6")
      ∈ pushFailSeg pickerW "3.6" "main" ∧
    Ev.stateSet "BACKPORT_PAUSED" ∉ pushFailSeg pickerW "3.6" "main" :=
  C6_push_failure_no_pause_but_deletes pickerW envC6 "3.6" [] cfgPrevMain [] "main"
    rfl rfl rfl rfl rfl rfl rfl rfl rfl rfl

theorem gsv_paused :
    get_state_and_verify (some "BACKPORT_PAUSED") = .ok .BACKPORT_PAUSED := by
  rfl

/-- C9 (amended).  From `BACKPORT_PAUSED`, when the current branch does not
start with `backport-`, `continue_cherry_pick` reports failure
(`CONTINUATION_FAILED`) and clears the state and both breadcrumbs with no
further action; but when the branch does start with `backport-` and the
remainder fails to parse as `<sha>-<base>`, the parse error propagates with
the state left at `CONTINUATION_STARTED` and the breadcrumbs uncleared. -/
theorem C9_continue_nonmatching_branch (p : Picker) (env : Env) (cfg : GitCfg)
    (pb : String)
    (hst : cfg.state = some "BACKPORT_PAUSED")
    (hpb : cfg.previous_branch = some pb) :
    ("backport-".data.isPrefixOf env.currentBranch.data = false →
      continue_cherry_pick p env cfg =
        (.ok (),
         ({ state := none, previous_branch := none, config_path := none } : GitCfg),
         [Ev.stateSet "CONTINUATION_FAILED"])) ∧
    (∀ m : String, "backport-".data.isPrefixOf env.currentBranch.data = true →
      get_base_branchS env.shaInRepo p.require_version_in_branch_name
          env.currentBranch = .error m →
      continue_cherry_pick p env cfg =
        (.error (.valueError m), {cfg with state := some "CONTINUATION_STARTED"},
         [Ev.stateSet "CONTINUATION_STARTED"])) := by
  constructor
  · intro hnb
    unfold continue_cherry_pick
    rw [hst, gsv_paused]
    simp [hnb, finishResets, wipe_previous_branch, wipe_state,
      reset_stored_config_ref, set_state, tokenName, hpb]
  · intro m hnb hparse
    unfold continue_cherry_pick
    rw [hst, gsv_paused]
    simp [hnb, hparse, set_state, tokenName]

def cfgPausedW : GitCfg :=
  { state := some "BACKPORT_PAUSED", previous_branch := some "main",
    config_path := some "abc123:.cherry_picker.toml" }

def envC9b : Env := { envOk with currentBranch := "backport-xyz" }

/-- C9 counterexample.  With the workflow paused and the current branch
`backport-xyz` — which starts with `backport-` but does not match the full
`backport-<sha>-<base>` shape — `continue_cherry_pick` raises the parse
error instead of reporting failure and clearing: the state is left at
`CONTINUATION_STARTED` and both breadcrumbs survive. -/
theorem C9_counterexample :
    (continue_cherry_pick pickerW envC9b cfgPausedW).1 =
      .error (.valueError "not enough values to unpack") ∧
    (continue_cherry_pick pickerW envC9b cfgPausedW).2.1.state =
      some "CONTINUATION_STARTED" ∧
    (continue_cherry_pick pickerW envC9b cfgPausedW).2.1.previous_branch =
      some "main" ∧
    (continue_cherry_pick pickerW envC9b cfgPausedW).2.1.config_path =
      some "abc123:.cherry_picker.toml" := by
  decide

def envC9a : Env := { envOk with currentBranch := "feature-work" }

/-- Witness for `C9_continue_nonmatching_branch` at concrete branches. -/
theorem C9_witness :
    continue_cherry_pick pickerW envC9a cfgPausedW =
      (.ok (),
       ({ state := none, previous_branch := none, config_path := none } : GitCfg),
       [Ev.stateSet "CONTINUATION_FAILED"]) ∧
    continue_cherry_pick pickerW envC9b cfgPausedW =
      (.error (.valueError "not enough values to unpack"),
       {cfgPausedW with state := some "CONTINUATION_STARTED"},
       [Ev.stateSet "CONTINUATION_STARTED"]) :=
  ⟨(C9_continue_nonmatching_branch pickerW envC9a cfgPausedW "main" rfl rfl).1
      (by decide),
   (C9_continue_nonmatching_branch pickerW envC9b cfgPausedW "main" rfl rfl).2
      "not enough values to unpack" (by decide) (by decide)⟩

/-! ### C4: unknown stored workflow-state tokens -/

theorem isAllowedState_iff (st : WorkflowState) :
    isAllowedState st = true ↔ (st = .BACKPORT_PAUSED ∨ st = .UNSET) := by
  cases st <;> simp [isAllowedState]

theorem gsv_unknown (t : String) (h0 : t ≠ "") (h1 : t ≠ "UNSET")
    (h2 : t ≠ "BACKPORT_PAUSED") : get_state_and_verify (some t) = .error t := by
  unfold get_state_and_verify get_state
  have ho : orUnset (some t) = t := by simp [orUnset, h0]
  rw [ho]
  cases hs : stateOfToken t with
  | none => rfl
  | some st =>
    have hname := stateOfToken_roundtrip t st hs
    have hnotallowed : isAllowedState st = false := by
      cases hna : isAllowedState st
      · rfl
      · exfalso
        rcases (isAllowedState_iff st).mp hna with h | h
        · subst h
          exact h2 hname.symm
        · subst h
          exact h1 hname.symm
    simp [hnotallowed, hname]

/-- C4 (amended).  Every nonempty stored state token other than the two
allowed ones — recognized mid-run tokens and unrecognized tokens alike —
makes `get_state_and_verify` fail carrying the raw token, so the
constructor's repo check (hence `run`), `continue_cherry_pick` and
`abort_cherry_pick` all fail carrying it; absence of the stored key is
treated as `UNSET`.  (The original claim fails for the empty stored value,
which Python's falsy `or` silently turns into `UNSET`: see the
counterexample.) -/
theorem C4_unknown_state_rejected :
    (∀ t : String, t ≠ "" → t ≠ "UNSET" → t ≠ "BACKPORT_PAUSED" →
      get_state_and_verify (some t) = .error t ∧
      ∀ (p : Picker) (env : Env) (cfg : GitCfg),
        cfg.state = some t → env.shaInRepo p.check_sha = true →
        check_repo p env cfg = .error (.invalidRepo t) ∧
        (continue_cherry_pick p env cfg).1 = .error (.valueError t) ∧
        (abort_cherry_pick p env cfg).1 = .error (.valueError t))
    ∧ get_state_and_verify none = .ok .UNSET := by
  constructor
  · intro t h0 h1 h2
    have hg := gsv_unknown t h0 h1 h2
    refine ⟨hg, ?_⟩
    intro p env cfg hcfg hsha
    refine ⟨?_, ?_, ?_⟩
    · simp [check_repo, hsha, hcfg, hg]
    · simp [continue_cherry_pick, hcfg, hg]
    · simp [abort_cherry_pick, hcfg, hg]
  · rfl

def cfgEmptyTok : GitCfg :=
  { state := some "", previous_branch := none, config_path := none }

/-- C4 counterexample.  The empty stored token is not one of the two
allowed states, yet `get_state_and_verify` silently treats it as `UNSET`
(Python `load_val_from_git_cfg("state") or "UNSET"`) and the repo check
succeeds, contradicting the claim that every such token makes new commands
fail with the raw token reported. -/
theorem C4_counterexample :
    get_state_and_verify (some "") = .ok .UNSET ∧
    check_repo pickerW envOk cfgEmptyTok = .ok () := by
  decide

def cfgMidRun : GitCfg :=
  { state := some "PUSHED_TO_REMOTE", previous_branch := none, config_path := none }

/-- Witness for `C4_unknown_state_rejected` at the recognized-but-disallowed
token `PUSHED_TO_REMOTE`. -/
theorem C4_witness :
    get_state_and_verify (some "PUSHED_TO_REMOTE") = .error "PUSHED_TO_REMOTE" ∧
    check_repo pickerW envOk cfgMidRun = .error (.invalidRepo "PUSHED_TO_REMOTE") ∧
    (continue_cherry_pick pickerW envOk cfgMidRun).1 =
      .error (.valueError "PUSHED_TO_REMOTE") ∧
    (abort_cherry_pick pickerW envOk cfgMidRun).1 =
      .error (.valueError "PUSHED_TO_REMOTE") ∧
    get_state_and_verify none = .ok .UNSET := by
  have h := C4_unknown_state_rejected
  have h1 := h.1 "PUSHED_TO_REMOTE" (by decide) (by decide) (by decide)
  have h2 := h1.2 pickerW envOk cfgMidRun rfl rfl
  exact ⟨h1.1, h2.1, h2.2.1, h2.2.2, h.2⟩

/-! ### `remove_commit_prefix` -/

/-- One match of `re.match(r"\[\d+(?:\.\d+)+\] *", commit_message)` at the
start of the message: `[`, a dotted numeric version (greedy, and as for the
search regex backtracking never helps), `]`, then any number of spaces.
Returns the remainder after the match, `none` when there is no match. -/
def stripOneVB (l : List Char) : Option (List Char) :=
  match l with
  | [] => none
  | c :: rest =>
    if c = '[' then
      let p1 := spanDigits rest
      if p1.1.isEmpty then none
      else
        let p2 := dotComponents p1.2.length p1.2
        if p2.1.isEmpty then none
        else
          match p2.2 with
          | [] => none
          | c2 :: r3 =>
            if c2 = ']' then some (r3.dropWhile (fun x => x = ' ')) else none
    else none

def rcpAux : Nat → List Char → List Char
  | 0, l => l
  | Nat.succ f, l =>
    match stripOneVB l with
    | none => l
    | some r => rcpAux f r

/-- `remove_commit_prefix(commit_message)`: the `while True` loop stripping
leading `[X.Y] ` tokens until the pattern no longer matches.  The fuel only
serves termination: every strip shortens the message, so `length + 1`
always suffices. -/
def remove_commit_prefix (l : List Char) : List Char :=
  rcpAux (l.length + 1) l

theorem dropWhile_length_le (p : Char → Bool) (l : List Char) :
    (l.dropWhile p).length ≤ l.length := by
  induction l with
  | nil => simp [List.dropWhile]
  | cons c r ih =>
    by_cases hc : p c
    · simp only [List.dropWhile, hc, List.length_cons]
      omega
    · simp [List.dropWhile, hc]

theorem stripOneVB_length (l r : List Char) (h : stripOneVB l = some r) :
    r.length < l.length := by
  match l with
  | [] => simp [stripOneVB] at h
  | c :: rest =>
    unfold stripOneVB at h
    simp only at h
    split at h
    case isTrue hc =>
      split at h
      case isTrue h1 => exact absurd h (by simp)
      case isFalse h1 =>
        split at h
        case isTrue h2 => exact absurd h (by simp)
        case isFalse h2 =>
          split at h
          case h_1 heq => exact absurd h (by simp)
          case h_2 c2 r3 heq =>
            split at h
            case isFalse => exact absurd h (by simp)
            case isTrue hc2 =>
              injection h with h
              subst h
              have e1 : (spanDigits rest).2.length ≤ rest.length :=
                spanDigits_suffix_length rest
              have e2 : (dotComponents (spanDigits rest).2.length
                  (spanDigits rest).2).2.length ≤ (spanDigits rest).2.length :=
                dotComponents_suffix_length _ _
              have e3 : (r3.dropWhile (fun x => x = ' ')).length ≤ r3.length :=
                dropWhile_length_le _ _
              have e4 : (dotComponents (spanDigits rest).2.length
                  (spanDigits rest).2).2.length = r3.length + 1 := by
                rw [heq]
                rfl
              simp only [List.length_cons]
              omega
    case isFalse hc => exact absurd h (by simp)

theorem rcpAux_fixed (f : Nat) : ∀ l : List Char, l.length < f →
    stripOneVB (rcpAux f l) = none := by
  induction f with
  | zero =>
    intro l h
    exact absurd h (Nat.not_lt_zero _)
  | succ f ih =>
    intro l h
    cases hs : stripOneVB l with
    | none =>
      simp only [rcpAux, hs]
    | some r =>
      have hlt := stripOneVB_length l r hs
      have hr : r.length < f := by omega
      simp only [rcpAux, hs]
      exact ih r hr

theorem dotComponents_no_dot (f : Nat) (l : List Char)
    (hl : ∀ c ∈ l.head?, ¬(c = '.')) : dotComponents f l = ([], l) := by
  cases f with
  | zero => rfl
  | succ f =>
    cases l with
    | nil => rfl
    | cons c rest =>
      have hc : ¬(c = '.') := hl c rfl
      simp [dotComponents, hc]

theorem dotComponents_single_group (f : Nat) (y t : List Char)
    (hy : ∀ c ∈ y, c.isDigit = true) (hy0 : y ≠ [])
    (ht1 : ∀ c ∈ t.head?, c.isDigit = false)
    (ht2 : ∀ c ∈ t.head?, ¬(c = '.')) :
    dotComponents (Nat.succ f) ('.' :: (y ++ t)) = ([y], t) := by
  obtain ⟨d, ds, rfl⟩ : ∃ d ds, y = d :: ds := by
    cases y with
    | nil => exact absurd rfl hy0
    | cons d ds => exact ⟨d, ds, rfl⟩
  have hsp : spanDigits ((d :: ds) ++ t) = (d :: ds, t) := spanDigits_append _ _ hy ht1
  have hrec : dotComponents f t = ([], t) := dotComponents_no_dot f t ht2
  simp only [dotComponents]
  rw [if_pos trivial]
  split
  next heq =>
    rw [hsp] at heq
    exact absurd heq (by simp)
  next e es r2 heq =>
    rw [hsp] at heq
    injection heq with h1 h2
    subst h2
    rw [hrec, ← h1]

theorem stripOneVB_bracket (x y rest : List Char)
    (hx : ∀ c ∈ x, c.isDigit = true) (hx0 : x ≠ [])
    (hy : ∀ c ∈ y, c.isDigit = true) (hy0 : y ≠ []) :
    stripOneVB ('[' :: (x ++ '.' :: (y ++ ']' :: ' ' :: rest)))
      = some ((' ' :: rest).dropWhile (fun c => c = ' ')) := by
  obtain ⟨a, as, rfl⟩ : ∃ a as, x = a :: as := by
    cases x with
    | nil => exact absurd rfl hx0
    | cons a as => exact ⟨a, as, rfl⟩
  have hsp1 : spanDigits ((a :: as) ++ '.' :: (y ++ ']' :: ' ' :: rest))
      = (a :: as, '.' :: (y ++ ']' :: ' ' :: rest)) :=
    spanDigits_append _ _ hx (by intro c hc; simp at hc; subst hc; decide)
  have hdot : dotComponents ('.' :: (y ++ ']' :: ' ' :: rest)).length
      ('.' :: (y ++ ']' :: ' ' :: rest)) = ([y], ']' :: ' ' :: rest) := by
    have hlen : ('.' :: (y ++ ']' :: ' ' :: rest)).length
        = Nat.succ (y ++ ']' :: ' ' :: rest).length := rfl
    rw [hlen]
    exact dotComponents_single_group _ y (']' :: ' ' :: rest) hy hy0
      (by intro c hc; simp at hc; subst hc; decide)
      (by intro c hc; simp at hc; subst hc; decide)
  simp only [stripOneVB]
  simp only [hsp1, hdot]
  simp

/-- C10 (confirmed).  The result of `remove_commit_prefix` never begins
with a bracketed-version token `[X.Y] ` (X, Y nonempty digit runs), and the
function is idempotent — re-running the rewrite on an already-rewritten
message cannot stack version prefixes. -/
theorem C10_strip_version_brackets_idempotent :
    (∀ (s x y rest : List Char),
      (∀ c ∈ x, c.isDigit = true) → x ≠ [] →
      (∀ c ∈ y, c.isDigit = true) → y ≠ [] →
      remove_commit_prefix s ≠ '[' :: (x ++ '.' :: (y ++ ']' :: ' ' :: rest))) ∧
    (∀ s : List Char,
      remove_commit_prefix ( remove_commit_prefix s) = remove_commit_prefix s) := by
  have hfix : ∀ s : List Char, stripOneVB ( remove_commit_prefix s) = none :=
    fun s => rcpAux_fixed (s.length + 1) s (Nat.lt_succ_self _)
  constructor
  · intro s x y rest hx hx0 hy hy0 heq
    have h1 := hfix s
    rw [heq, stripOneVB_bracket x y rest hx hx0 hy hy0] at h1
    exact Option.noConfusion h1
  · intro s
    have h1 := hfix s
    show rcpAux _ _ = _
    simp only [rcpAux, h1]

/-- Witness for `C10_strip_version_brackets_idempotent` at a concrete
message. -/
theorem C10_witness :
    remove_commit_prefix "[3.6] [3.7] fix crash".data ≠
      '[' :: (['1'] ++ '.' :: (['2'] ++ ']' :: ' ' :: [])) ∧
    remove_commit_prefix ( remove_commit_prefix "[3.6] [3.7] fix crash".data)
      = remove_commit_prefix "[3.6] [3.7] fix crash".data :=
  ⟨C10_strip_version_brackets_idempotent.1 "[3.6] [3.7] fix crash".data
      ['1'] ['2'] [] (by decide) (by decide) (by decide) (by decide),
   C10_strip_version_brackets_idempotent.2 "[3.6] [3.7] fix crash".data⟩

end CherryPickerModel
